import Mathlib

/-!
Verification of the LXCloud controller liveness subsystem.

Shallow embedding of:
- `Controller.is_stale` and `Controller.update_status`
  (src/project/app/models.py),
- the reconciliation pass, worker loop and service control surface
  (src/app/controller_status_service.py),
- the ingestion adapters (src/app/routes/api.py HTTP endpoints and
  src/app/mqtt_service.py MQTT handlers).

Timestamps and timeouts are modelled as `Int` (UTC instants in seconds);
`datetime` values form a linear order and only comparison and subtraction
are used by the code, so the integer model is faithful.
-/

namespace LXCloud

/-- The Controller entity, restricted to the fields the liveness subsystem
reads or writes (src/project/app/models.py, class Controller). -/
structure Controller where
  serial_number : String
  controller_type : String
  name : String
  is_online : Bool
  last_seen : Option Int
  timeout_seconds : Option Int
  deriving Repr, DecidableEq

/-- `Controller.is_stale` from src/project/app/models.py:
if `last_seen` is absent return `True`; otherwise use the per-controller
`timeout_seconds` when set, else the provided default, and compare
`last_seen < now - timeout`. -/
def Controller.is_stale (c : Controller) (default_timeout_seconds : Int)
    (now : Int) : Bool :=
  match c.last_seen with
  | none => true
  | some seen =>
      let timeout_to_use :=
        match c.timeout_seconds with
        | some t => t
        | none => default_timeout_seconds
      let cutoff_time := now - timeout_to_use
      decide (seen < cutoff_time)

/-- `Controller.update_status` from src/project/app/models.py:
mark the controller online and set `last_seen` to the current time. -/
def Controller.update_status (c : Controller) (now : Int) : Controller :=
  { c with is_online := true, last_seen := some now }

/-- The effective timeout used by `is_stale`: the per-controller override
when present, otherwise the global default. -/
def effectiveTimeout (c : Controller) (default_timeout_seconds : Int) : Int :=
  match c.timeout_seconds with
  | some t => t
  | none => default_timeout_seconds

/-- The per-controller effect of one reconciliation pass
(src/app/controller_status_service.py, `_check_controller_status` body):
an online controller found stale gets `is_online := False`; every other
controller is untouched. -/
def tickController (d now : Int) (c : Controller) : Controller :=
  if c.is_online && c.is_stale d now then { c with is_online := false } else c

/-- Result of one reconciliation pass: the resulting store, the per-field
writes performed (serial number, new `is_online` value), and whether
`db.session.commit()` was called. -/
structure PassResult where
  store : List Controller
  writes : List (String × Bool)
  committed : Bool
  deriving Repr, DecidableEq

/-- `ControllerStatusService._check_controller_status`
(src/app/controller_status_service.py lines 102-142, success path):
query all controllers with `is_online == True`; if none, return without
touching the store; otherwise set `is_online = False` on each stale one
and commit iff at least one controller was updated. -/
def checkControllerStatus (store : List Controller) (d now : Int) :
    PassResult :=
  let online_controllers := store.filter (fun c => c.is_online)
  if online_controllers.isEmpty then
    { store := store, writes := [], committed := false }
  else
    let stale_online := online_controllers.filter (fun c => c.is_stale d now)
    { store := store.map (tickController d now)
      writes := stale_online.map (fun c => (c.serial_number, false))
      committed := decide (0 < stale_online.length) }

/-- Abstract state of a `ControllerStatusService` instance
(src/app/controller_status_service.py): whether `self.app` has been
supplied, the `enabled` flag, whether `status_thread` exists and is alive,
and whether `stop_event` is set. -/
structure ControllerStatusService where
  hasApp : Bool
  enabled : Bool
  threadAlive : Bool
  stopEventSet : Bool
  deriving Repr, DecidableEq

/-- `ControllerStatusService.__init__`: `enabled = True`, no thread,
stop event clear. -/
def newService (hasApp : Bool) : ControllerStatusService :=
  { hasApp := hasApp, enabled := true, threadAlive := false,
    stopEventSet := false }

/-- `ControllerStatusService.start` (lines 25-61): fail if no app, fail if
not enabled, succeed as a no-op if the thread is already alive; otherwise
clear the stop event and spawn the worker, reporting success iff the
thread is observed alive after the grace delay (`spawnAlive`). -/
def ControllerStatusService.start (s : ControllerStatusService)
    (spawnAlive : Bool) : ControllerStatusService × Bool :=
  if !s.hasApp then (s, false)
  else if !s.enabled then (s, false)
  else if s.threadAlive then (s, true)
  else
    ({ s with stopEventSet := false, threadAlive := spawnAlive }, spawnAlive)

/-- `ControllerStatusService.stop` (lines 63-68): set `enabled = False`,
set the stop event, and if the thread is alive join it with a bounded
timeout; `joinCompletes` models the worker exiting within that timeout. -/
def ControllerStatusService.stop (s : ControllerStatusService)
    (joinCompletes : Bool) : ControllerStatusService :=
  let s' := { s with enabled := false, stopEventSet := true }
  if s'.threadAlive then { s' with threadAlive := !joinCompletes } else s'

/-- `ControllerStatusService.force_check` (lines 153-157): if `self.app`
is set, run one `_check_controller_status` pass synchronously; otherwise
do nothing and return without any error. Returns the resulting store and
whether a pass ran. -/
def ControllerStatusService.force_check (s : ControllerStatusService)
    (store : List Controller) (d now : Int) : List Controller × Bool :=
  if s.hasApp then ((checkControllerStatus store d now).store, true)
  else (store, false)

/-- Points at which a reconciliation pass can raise: during the store
scan / staleness loop, or inside `db.session.commit()`. -/
inductive PassError where
  | scanError
  | commitError
  deriving Repr, DecidableEq

/-- The body of `_check_controller_status` inside its `try`, with an error
oracle: `scanError` models an exception raised by the query or the
evaluation loop; `commitError` one raised by `db.session.commit()`, which
is only reachable when a commit is actually attempted. -/
def checkControllerStatusBody (store : List Controller) (d now : Int)
    (err : Option PassError) : Except PassError PassResult :=
  if err = some PassError.scanError then Except.error PassError.scanError
  else
    let r := checkControllerStatus store d now
    if r.committed = true ∧ err = some PassError.commitError then
      Except.error PassError.commitError
    else Except.ok r

/-- `_check_controller_status` with its enclosing `try/except`
(lines 102-151): an exception anywhere in the body is caught, the session
is rolled back (so the committed store is unchanged by the failed pass),
and nothing is re-raised. Returns the committed store and whether an
exception propagated to the caller. -/
def checkControllerStatusCaught (store : List Controller) (d now : Int)
    (err : Option PassError) : List Controller × Bool :=
  match checkControllerStatusBody store d now err with
  | Except.ok r => (r.store, false)
  | Except.error _ => (store, false)

/-- One iteration of the `while` loop in `_run_status_checker`
(lines 83-98): the body runs iff `enabled` and the stop event is unset;
the pass sits inside a further `try/except`; the worker then waits on the
stop event for the check interval and breaks iff the event was set during
the wait. Returns the store after the iteration and whether the loop
proceeds to another iteration. -/
def runStatusCheckerIter (s : ControllerStatusService)
    (stopSetDuringWait : Bool) (store : List Controller) (d now : Int)
    (err : Option PassError) : List Controller × Bool :=
  if s.enabled && !s.stopEventSet then
    ((checkControllerStatusCaught store d now err).1, !stopSetDuringWait)
  else (store, false)

/-- Model of Python `str.upper()` on one character, for the ASCII range
serial numbers live in. -/
def upperChar (ch : Char) : Char :=
  if 97 ≤ ch.toNat ∧ ch.toNat ≤ 122 then Char.ofNat (ch.toNat - 32) else ch

/-- Model of Python `str.upper()` (ASCII range). -/
def upperString (s : String) : String := String.mk (s.data.map upperChar)

/-- Model of Python `str.lower()` on one character (ASCII range). -/
def lowerChar (ch : Char) : Char :=
  if 65 ≤ ch.toNat ∧ ch.toNat ≤ 90 then Char.ofNat (ch.toNat + 32) else ch

/-- Model of Python `str.lower()` (ASCII range). -/
def lowerString (s : String) : String := String.mk (s.data.map lowerChar)

/-- ASCII whitespace recognizer backing the model of `str.strip()`. -/
def isSpaceChar (ch : Char) : Bool :=
  ch == ' ' || ch == '\t' || ch == '\n' || ch == '\r'

/-- Model of Python `str.strip()`: drop leading and trailing whitespace. -/
def stripString (s : String) : String :=
  String.mk (((s.data.dropWhile isSpaceChar).reverse.dropWhile
    isSpaceChar).reverse)

/-- Python `serial_number.strip().upper()` canonicalization used by the
HTTP endpoints. -/
def canonSerial (serial : String) : String := upperString (stripString serial)

/-- `Controller.query.filter_by(serial_number=...).first()`. -/
def findController (store : List Controller) (serial : String) :
    Option Controller :=
  store.find? (fun c => c.serial_number == serial)

/-- Mutating the single row returned by `.first()`: apply `f` to the first
controller whose serial matches, leaving all other rows untouched. -/
def updateFirstController (store : List Controller) (serial : String)
    (f : Controller → Controller) : List Controller :=
  match store with
  | [] => []
  | c :: rest =>
      if c.serial_number == serial then f c :: rest
      else c :: updateFirstController rest serial f

/-- HTTP `POST /api/controllers/<serial>/data` (`update_controller_data`,
src/app/routes/api.py lines 211-270, with a JSON body present): reserved
words give 400; an unknown serial gives 404 without creating anything;
otherwise the found controller gets `is_online = True` and
`last_seen = now`. Returns the new store and the HTTP status code. -/
def update_controller_data (store : List Controller) (serial : String)
    (now : Int) : List Controller × Nat :=
  if lowerString serial = "register" ∨ lowerString serial = "list"
      ∨ lowerString serial = "debug" then
    (store, 400)
  else
    let sn := canonSerial serial
    match findController store sn with
    | none => (store, 404)
    | some _ =>
        (updateFirstController store sn
          (fun c => { c with is_online := true, last_seen := some now }), 200)

/-- HTTP `POST /api/controllers/<serial>/status` (`update_controller_status`,
src/app/routes/api.py lines 272-308, with a JSON body present): reserved
words give 400; an unknown serial gives 404; otherwise
`online = data.get('online', True)` and the found controller gets
`is_online = bool(online)` and `last_seen = now`. -/
def update_controller_status (store : List Controller) (serial : String)
    (online_field : Option Bool) (now : Int) : List Controller × Nat :=
  if lowerString serial = "register" ∨ lowerString serial = "list"
      ∨ lowerString serial = "debug" then
    (store, 400)
  else
    let sn := canonSerial serial
    match findController store sn with
    | none => (store, 404)
    | some _ =>
        let online := online_field.getD true
        (updateFirstController store sn
          (fun c => { c with is_online := online, last_seen := some now }), 200)

/-- MQTT `_handle_controller_data` (src/app/mqtt_service.py lines 133-180,
valid JSON payload): the serial arrives already uppercased by
`_on_message`; if no row exists one is created (type and name from the
payload/serial, every other field at its column default), then the row's
type is refreshed and `update_status` marks it online with
`last_seen = now`. -/
def handle_controller_data (store : List Controller) (serial : String)
    (ctype : String) (now : Int) : List Controller :=
  match findController store serial with
  | none =>
      let created : Controller :=
        { serial_number := serial, controller_type := ctype, name := serial,
          is_online := false, last_seen := none, timeout_seconds := none }
      store ++ [({ created with controller_type := ctype }).update_status now]
  | some _ =>
      updateFirstController store serial
        (fun c => ({ c with controller_type := ctype }).update_status now)

/-- MQTT `_handle_controller_status` (src/app/mqtt_service.py lines
182-197, valid JSON payload): `online = status_data.get('online', False)`;
if a row for the (pre-uppercased) serial exists it gets
`is_online = online` and `last_seen = now`; an unknown serial is silently
ignored. -/
def handle_controller_status (store : List Controller) (serial : String)
    (online_field : Option Bool) (now : Int) : List Controller :=
  let online := online_field.getD false
  match findController store serial with
  | none => store
  | some _ =>
      updateFirstController store serial
        (fun c => { c with is_online := online, last_seen := some now })

/-- `MQTTService._on_message` dispatch (lines 110-126): the serial number
from the topic is uppercased before either handler runs. -/
def mqtt_on_data_message (store : List Controller) (rawSerial ctype : String)
    (now : Int) : List Controller :=
  handle_controller_data store (upperString rawSerial) ctype now

/-- `MQTTService._on_message` dispatch for a status message. -/
def mqtt_on_status_message (store : List Controller) (rawSerial : String)
    (online_field : Option Bool) (now : Int) : List Controller :=
  handle_controller_status store (upperString rawSerial) online_field now

/-- Sample controller for instantiating theorems: at `now = 100` with
global default `300`, it is online and stale (override 60, last seen 90
seconds ago — the spec's Scenario A). -/
def cStale : Controller :=
  { serial_number := "STALE1", controller_type := "speedradar",
    name := "STALE1", is_online := true, last_seen := some 10,
    timeout_seconds := some 60 }

/-- Sample controller: at `now = 100` with global default `300`, online
and not stale (no override, last seen 90 seconds ago — the spec's
Scenario B). -/
def cFresh : Controller :=
  { serial_number := "FRESH1", controller_type := "weatherstation",
    name := "FRESH1", is_online := true, last_seen := some 10,
    timeout_seconds := none }

/-- Sample controller that is offline and never seen. -/
def cOffline : Controller :=
  { serial_number := "OFF1", controller_type := "aicamera",
    name := "OFF1", is_online := false, last_seen := none,
    timeout_seconds := none }

theorem is_stale_eq_decide (c : Controller) (d now seen : Int)
    (h : c.last_seen = some seen) :
    c.is_stale d now = decide (seen < now - effectiveTimeout c d) := by
  unfold Controller.is_stale effectiveTimeout
  rw [h]

end LXCloud

namespace LXCloud

/-- C2: for a controller with non-null `last_seen`, `is_stale` returns true
iff `now - last_seen` strictly exceeds the effective timeout; at exact
equality it returns false. -/
theorem is_stale_strict_boundary (c : Controller) (seen d now : Int)
    (h : c.last_seen = some seen) :
    (c.is_stale d now = true ↔ effectiveTimeout c d < now - seen)
      ∧ (now - seen = effectiveTimeout c d → c.is_stale d now = false) := by
  rw [is_stale_eq_decide c d now seen h]
  constructor
  · simp only [decide_eq_true_eq]
    omega
  · intro he
    simp only [decide_eq_false_iff_not, not_lt]
    omega

/-- Witness for C2: a controller seen exactly at the boundary
(now 100, last_seen 40, timeout 60) is not stale; one second past
the boundary it is. -/
theorem is_stale_strict_boundary_witness :
    ({ serial_number := "SN1", controller_type := "speedradar",
       name := "SN1", is_online := true, last_seen := some 40,
       timeout_seconds := some 60 : Controller }.last_seen = some 40)
      ∧ ({ serial_number := "SN1", controller_type := "speedradar",
           name := "SN1", is_online := true, last_seen := some 40,
           timeout_seconds := some 60 : Controller }.is_stale 300 100 = false) := by
  refine ⟨rfl, ?_⟩
  exact (is_stale_strict_boundary _ 40 300 100 rfl).2 (by decide)

/-- C3: a controller whose `last_seen` is absent is stale for every
per-controller timeout, global default and instant. -/
theorem is_stale_of_never_seen (c : Controller) (d now : Int)
    (h : c.last_seen = none) :
    c.is_stale d now = true := by
  unfold Controller.is_stale
  rw [h]

/-- Witness for C3: a never-seen controller is stale. -/
theorem is_stale_of_never_seen_witness :
    ({ serial_number := "SN2", controller_type := "aicamera",
       name := "SN2", is_online := true, last_seen := none,
       timeout_seconds := some 7 : Controller }.last_seen = none)
      ∧ ({ serial_number := "SN2", controller_type := "aicamera",
           name := "SN2", is_online := true, last_seen := none,
           timeout_seconds := some 7 : Controller }.is_stale 300 100 = true) :=
  ⟨rfl, is_stale_of_never_seen _ 300 100 rfl⟩

theorem checkControllerStatus_store_eq_map (store : List Controller)
    (d now : Int) :
    (checkControllerStatus store d now).store
      = store.map (tickController d now) := by
  unfold checkControllerStatus
  by_cases h : (store.filter (fun c => c.is_online)).isEmpty
  · simp only [h, if_true]
    rw [List.isEmpty_iff, List.filter_eq_nil_iff] at h
    conv_lhs => rw [(List.map_id store).symm]
    apply List.map_congr_left
    intro c hc
    have hon : ¬ c.is_online = true := h c hc
    simp only [id, tickController, Bool.and_eq_true]
    simp only [Bool.not_eq_true] at hon
    simp [hon]
  · simp [h]

/-- C4: when `timeout_seconds` is set, the global default is irrelevant:
`is_stale` gives the same answer for any two defaults. -/
theorem is_stale_override_precedence (c : Controller) (x g₁ g₂ now : Int)
    (h : c.timeout_seconds = some x) :
    c.is_stale g₁ now = c.is_stale g₂ now := by
  unfold Controller.is_stale
  rw [h]

/-- Witness for C4: with `timeout_seconds = 60` set, defaults 300 and 10
agree. -/
theorem is_stale_override_precedence_witness :
    ({ serial_number := "SN3", controller_type := "windmeter",
       name := "SN3", is_online := true, last_seen := some 10,
       timeout_seconds := some 60 : Controller }.timeout_seconds = some 60)
      ∧ ({ serial_number := "SN3", controller_type := "windmeter",
           name := "SN3", is_online := true, last_seen := some 10,
           timeout_seconds := some 60 : Controller }.is_stale 300 100
          = { serial_number := "SN3", controller_type := "windmeter",
              name := "SN3", is_online := true, last_seen := some 10,
              timeout_seconds := some 60 : Controller }.is_stale 10 100) :=
  ⟨rfl, is_stale_override_precedence _ 60 300 10 100 rfl⟩

/-- C1: in a reconciliation pass at instant `now` — including one run
through `force_check` on a service whose app is set — every controller
that was online and stale is offline afterwards, and every controller
that was online and not stale is still online. -/
theorem pass_transitions_exactly_stale_online (store : List Controller)
    (d now : Int) (s : ControllerStatusService) (i : Nat) (c : Controller)
    (hs : s.hasApp = true) (hc : store.get? i = some c)
    (hon : c.is_online = true) :
    (s.force_check store d now).1 = (checkControllerStatus store d now).store
    ∧ (c.is_stale d now = true →
        ((checkControllerStatus store d now).store.get? i).map
          Controller.is_online = some false)
    ∧ (c.is_stale d now = false →
        ((checkControllerStatus store d now).store.get? i).map
          Controller.is_online = some true) := by
  have hmap := checkControllerStatus_store_eq_map store d now
  refine ⟨?_, ?_, ?_⟩
  · simp [ControllerStatusService.force_check, hs, hmap]
  · intro hstale
    rw [hmap, List.get?_map, hc]
    simp [tickController, hon, hstale]
  · intro hfresh
    rw [hmap, List.get?_map, hc]
    simp [tickController, hon, hfresh]

/-- Witness for C1: Scenarios A and B of the spec in one pass at
`now = 100`, default 300: the stale controller (override 60, seen 90s ago)
goes offline, the fresh one (no override, seen 90s ago) stays online, and
`force_check` runs exactly this pass. -/
theorem pass_transitions_exactly_stale_online_witness :
    ((newService true).hasApp = true)
    ∧ ([cStale, cFresh].get? 0 = some cStale)
    ∧ (cStale.is_online = true)
    ∧ (((newService true).force_check [cStale, cFresh] 300 100).1
        = (checkControllerStatus [cStale, cFresh] 300 100).store)
    ∧ (((checkControllerStatus [cStale, cFresh] 300 100).store.get? 0).map
        Controller.is_online = some false)
    ∧ (((checkControllerStatus [cStale, cFresh] 300 100).store.get? 1).map
        Controller.is_online = some true) := by
  have h₀ := pass_transitions_exactly_stale_online [cStale, cFresh] 300 100
    (newService true) 0 cStale rfl rfl rfl
  have h₁ := pass_transitions_exactly_stale_online [cStale, cFresh] 300 100
    (newService true) 1 cFresh rfl rfl rfl
  exact ⟨rfl, rfl, rfl, h₀.1, h₀.2.1 (by decide), h₁.2.2 (by decide)⟩

/-- C5: frame property of a reconciliation pass: the store keeps its
length; every controller keeps its `last_seen`, `timeout_seconds`,
`serial_number`, `controller_type` and `name`; an online non-stale
controller, and any offline controller, is entirely unchanged; and when
no online controller is stale (in particular when there is no online
controller at all) the pass performs zero writes and does not commit. -/
theorem pass_frame_property (store : List Controller) (d now : Int) :
    (checkControllerStatus store d now).store.length = store.length
    ∧ (∀ i c, store.get? i = some c →
        ((checkControllerStatus store d now).store.get? i
            = some (tickController d now c))
          ∧ (tickController d now c).last_seen = c.last_seen
          ∧ (tickController d now c).timeout_seconds = c.timeout_seconds
          ∧ (tickController d now c).serial_number = c.serial_number
          ∧ (tickController d now c).controller_type = c.controller_type
          ∧ (tickController d now c).name = c.name
          ∧ (c.is_online = true → c.is_stale d now = false →
              tickController d now c = c)
          ∧ (c.is_online = false → tickController d now c = c))
    ∧ ((∀ c ∈ store, c.is_online = true → c.is_stale d now = false) →
        (checkControllerStatus store d now).writes = []
          ∧ (checkControllerStatus store d now).committed = false) := by
  have hmap := checkControllerStatus_store_eq_map store d now
  refine ⟨by rw [hmap, List.length_map], ?_, ?_⟩
  · intro i c hc
    refine ⟨by rw [hmap, List.get?_map, hc]; rfl, ?_, ?_, ?_, ?_, ?_, ?_, ?_⟩
    all_goals unfold tickController
    · split <;> rfl
    · split <;> rfl
    · split <;> rfl
    · split <;> rfl
    · split <;> rfl
    · intro hon hfresh
      simp [hon, hfresh]
    · intro hoff
      simp [hoff]
  · intro hall
    unfold checkControllerStatus
    by_cases h : (store.filter (fun c => c.is_online)).isEmpty
    · simp [h]
    · have hnil : (store.filter (fun c => c.is_online)).filter
          (fun c => c.is_stale d now) = [] := by
        rw [List.filter_eq_nil_iff]
        intro c hcmem
        have hmem := List.mem_filter.mp hcmem
        have := hall c hmem.1 hmem.2
        simp [this]
      simp [h, hnil]

/-- Witness for C5: a pass over a single fresh online controller returns
it via `tickController` (unchanged), performs zero writes, and does not
commit. -/
theorem pass_frame_property_witness :
    ([cFresh].get? 0 = some cFresh)
    ∧ ((checkControllerStatus [cFresh] 300 100).store.get? 0
        = some (tickController 300 100 cFresh))
    ∧ ((checkControllerStatus [cFresh] 300 100).writes = []
        ∧ (checkControllerStatus [cFresh] 300 100).committed = false) := by
  refine ⟨rfl, ((pass_frame_property [cFresh] 300 100).2.1 0 cFresh rfl).1, ?_⟩
  exact (pass_frame_property [cFresh] 300 100).2.2 (by decide)

/-- C8 counterexample: a freshly started service (app supplied, worker
spawned) is stopped with the join completing — the worker is gone — yet
the subsequent `start` returns `false`: `stop` clears `enabled` and
`start` refuses while the service is disabled, so the service is not
restartable from Stopped. -/
theorem start_after_stop_counterexample :
    ((((newService true).start true).1.stop true).threadAlive = false)
    ∧ (((((newService true).start true).1.stop true).start true).2
        = false) := by
  decide

/-- C8 amended: after any `stop` (completed or not), a subsequent `start`
fails — it returns `false` and leaves the state exactly as `stop` left
it, because `stop` permanently clears the `enabled` flag. -/
theorem start_after_stop_fails (s : ControllerStatusService)
    (j sp : Bool) :
    ((s.stop j).start sp).2 = false
      ∧ ((s.stop j).start sp).1 = s.stop j := by
  rcases s with ⟨ha, en, ta, se⟩
  cases ha <;> cases en <;> cases ta <;> cases se <;> cases j <;> cases sp
    <;> decide

/-- C9: every error raised inside a reconciliation pass is caught at the
pass boundary: nothing propagates, a pass whose body raised leaves the
committed store unchanged (rollback), and the worker loop — enabled,
no stop requested — still proceeds to its next iteration. -/
theorem pass_errors_caught (store : List Controller) (d now : Int)
    (err : Option PassError) (s : ControllerStatusService)
    (hen : s.enabled = true) (hst : s.stopEventSet = false) :
    (checkControllerStatusCaught store d now err).2 = false
    ∧ (∀ e, checkControllerStatusBody store d now err = Except.error e →
        checkControllerStatusCaught store d now err = (store, false))
    ∧ (runStatusCheckerIter s false store d now err).2 = true := by
  refine ⟨?_, ?_, ?_⟩
  · unfold checkControllerStatusCaught
    cases h : checkControllerStatusBody store d now err <;> simp
  · intro e he
    simp [checkControllerStatusCaught, he]
  · simp [runStatusCheckerIter, hen, hst]

/-- Witness for C9: a scan error during a pass over one stale controller
is caught, the store is unchanged, and the loop continues. -/
theorem pass_errors_caught_witness :
    ((newService true).enabled = true)
    ∧ ((newService true).stopEventSet = false)
    ∧ ((checkControllerStatusCaught [cStale] 300 100
        (some PassError.scanError)).2 = false)
    ∧ (checkControllerStatusBody [cStale] 300 100 (some PassError.scanError)
        = Except.error PassError.scanError)
    ∧ (checkControllerStatusCaught [cStale] 300 100
        (some PassError.scanError) = ([cStale], false))
    ∧ ((runStatusCheckerIter (newService true) false [cStale] 300 100
        (some PassError.scanError)).2 = true) := by
  have h := pass_errors_caught [cStale] 300 100 (some PassError.scanError)
    (newService true) rfl rfl
  exact ⟨rfl, rfl, h.1, rfl, h.2.1 PassError.scanError rfl, h.2.2⟩

/-- C10: `force_check` on a service whose app was never supplied is a
silent no-op — the store is untouched, no pass runs, and no error is
signalled — whereas `start` on the same service reports failure
(returns `false`) and spawns nothing. -/
theorem force_check_without_app_noop (s : ControllerStatusService)
    (store : List Controller) (d now : Int) (sp : Bool)
    (h : s.hasApp = false) :
    (s.force_check store d now).1 = store
    ∧ (s.force_check store d now).2 = false
    ∧ (s.start sp).2 = false
    ∧ (s.start sp).1 = s := by
  unfold ControllerStatusService.force_check ControllerStatusService.start
  simp [h]

/-- Witness for C10: a service built without an app. -/
theorem force_check_without_app_noop_witness :
    ((newService false).hasApp = false)
    ∧ ((newService false).force_check [cStale] 300 100).1 = [cStale]
    ∧ ((newService false).force_check [cStale] 300 100).2 = false
    ∧ ((newService false).start true).2 = false := by
  have h := force_check_without_app_noop (newService false) [cStale] 300 100
    true rfl
  exact ⟨rfl, h.1, h.2.1, h.2.2.1⟩

theorem updateFirstController_eq_set (store : List Controller) (sn : String)
    (f : Controller → Controller) (c : Controller)
    (h : findController store sn = some c) :
    updateFirstController store sn f
      = store.set (store.findIdx (fun c' => c'.serial_number == sn)) (f c) := by
  induction store with
  | nil => simp [findController] at h
  | cons a rest ih =>
      by_cases ha : (a.serial_number == sn) = true
      · have hfa := @List.find?_cons_of_pos Controller
          (fun c' => c'.serial_number == sn) a rest ha
        rw [findController, hfa] at h
        injection h with h
        subst h
        simp [updateFirstController, ha, List.findIdx_cons]
      · have hfa := @List.find?_cons_of_neg Controller
          (fun c' => c'.serial_number == sn) a rest (by simpa using ha)
        rw [findController, hfa] at h
        have hr := ih h
        simp [updateFirstController, ha, List.findIdx_cons, hr,
          findController]

/-- C6 counterexample: status-path ingestion events can set a controller
offline: an MQTT status message with `online = false` (or with the field
absent, which defaults to `False`), and an HTTP status POST with
`online = false`, all leave the targeted online controller with
`is_online = false`. -/
theorem ingestion_never_offline_counterexample :
    ((handle_controller_status [cFresh] "FRESH1" (some false) 100).map
        Controller.is_online = [false])
    ∧ (((update_controller_status [cFresh] "FRESH1" (some false) 100).1).map
        Controller.is_online = [false])
    ∧ ((handle_controller_status [cFresh] "FRESH1" none 100).map
        Controller.is_online = [false]) := by
  decide

/-- C6 amended: an ingestion event for an existing controller updates
exactly the first row matching the canonical serial and always refreshes
its `last_seen`; the data paths (HTTP data POST, MQTT data message) force
`is_online = True`, while the status paths set `is_online` to the
payload's `online` field — defaulting to `True` when absent on HTTP and to
`False` when absent on MQTT — and so can set it to `False`. -/
theorem ingestion_event_effects (store : List Controller)
    (sn rawH ctype : String) (ob obH : Option Bool) (now : Int)
    (c : Controller) (h : findController store sn = some c)
    (hcanon : canonSerial rawH = sn)
    (hres : ¬(lowerString rawH = "register" ∨ lowerString rawH = "list"
        ∨ lowerString rawH = "debug")) :
    handle_controller_data store sn ctype now
      = store.set (store.findIdx (fun c' => c'.serial_number == sn))
          { c with controller_type := ctype, is_online := true,
                   last_seen := some now }
    ∧ handle_controller_status store sn ob now
      = store.set (store.findIdx (fun c' => c'.serial_number == sn))
          { c with is_online := ob.getD false, last_seen := some now }
    ∧ update_controller_data store rawH now
      = (store.set (store.findIdx (fun c' => c'.serial_number == sn))
          { c with is_online := true, last_seen := some now }, 200)
    ∧ update_controller_status store rawH obH now
      = (store.set (store.findIdx (fun c' => c'.serial_number == sn))
          { c with is_online := obH.getD true, last_seen := some now },
         200) := by
  refine ⟨?_, ?_, ?_, ?_⟩
  · simp only [handle_controller_data, h]
    exact updateFirstController_eq_set store sn _ c h
  · simp only [handle_controller_status, h]
    exact updateFirstController_eq_set store sn _ c h
  · simp only [update_controller_data, hcanon, h, hres, if_false]
    rw [updateFirstController_eq_set store sn _ c h]
  · simp only [update_controller_status, hcanon, h, hres, if_false]
    rw [updateFirstController_eq_set store sn _ c h]

/-- Witness for C6 amended: a store holding one online controller
`FRESH1`, an MQTT status message with `online = false`, and an HTTP status
POST for serial `"fresh1"` with no `online` field. -/
theorem ingestion_event_effects_witness :
    (findController [cFresh] "FRESH1" = some cFresh)
    ∧ (canonSerial "fresh1" = "FRESH1")
    ∧ (handle_controller_data [cFresh] "FRESH1" "speedradar" 100
        = [cFresh].set ([cFresh].findIdx
            (fun c' => c'.serial_number == "FRESH1"))
            { cFresh with controller_type := "speedradar",
                          is_online := true, last_seen := some 100 })
    ∧ (handle_controller_status [cFresh] "FRESH1" (some false) 100
        = [cFresh].set ([cFresh].findIdx
            (fun c' => c'.serial_number == "FRESH1"))
            { cFresh with is_online := false, last_seen := some 100 })
    ∧ (update_controller_data [cFresh] "fresh1" 100
        = ([cFresh].set ([cFresh].findIdx
            (fun c' => c'.serial_number == "FRESH1"))
            { cFresh with is_online := true, last_seen := some 100 }, 200))
    ∧ (update_controller_status [cFresh] "fresh1" none 100
        = ([cFresh].set ([cFresh].findIdx
            (fun c' => c'.serial_number == "FRESH1"))
            { cFresh with is_online := true, last_seen := some 100 },
           200)) := by
  have h := ingestion_event_effects [cFresh] "FRESH1" "fresh1" "speedradar"
    (some false) none 100 cFresh (by decide) (by decide) (by decide)
  exact ⟨by decide, by decide, h.1, h.2.1, h.2.2.1, h.2.2.2⟩

/-- C7 counterexample: an ingestion event for an unknown serial does not
create a row on every path: the HTTP data and status endpoints answer 404
and leave the empty store empty, and an MQTT status message for an
unknown serial changes nothing. -/
theorem upsert_on_every_path_counterexample :
    (update_controller_data [] "NEWSN99" 5 = ([], 404))
    ∧ (update_controller_status [] "NEWSN99" (some true) 5 = ([], 404))
    ∧ (handle_controller_status [] "NEWSN99" (some true) 5 = []) := by
  decide

/-- C7 amended: only the MQTT data path has upsert semantics: a data
message for an unknown serial appends a new row with the
uppercase-canonicalized serial, the payload's type, `is_online = True`,
`last_seen = now` and a null per-controller timeout. The HTTP data and
status endpoints answer 404 without creating anything, and an MQTT status
message for an unknown serial is silently ignored. -/
theorem ingestion_unknown_serial (store : List Controller)
    (rawM rawH ctype : String) (ob obH : Option Bool) (now : Int)
    (hM : findController store (upperString rawM) = none)
    (hH : findController store (canonSerial rawH) = none)
    (hres : ¬(lowerString rawH = "register" ∨ lowerString rawH = "list"
        ∨ lowerString rawH = "debug")) :
    mqtt_on_data_message store rawM ctype now
      = store ++ [{ serial_number := upperString rawM, controller_type := ctype,
                    name := upperString rawM, is_online := true,
                    last_seen := some now, timeout_seconds := none }]
    ∧ mqtt_on_status_message store rawM ob now = store
    ∧ update_controller_data store rawH now = (store, 404)
    ∧ update_controller_status store rawH obH now = (store, 404) := by
  refine ⟨?_, ?_, ?_, ?_⟩
  · simp only [mqtt_on_data_message, handle_controller_data, hM]
    rfl
  · simp only [mqtt_on_status_message, handle_controller_status, hM]
  · simp only [update_controller_data, hH, hres, if_false]
  · simp only [update_controller_status, hH, hres, if_false]

/-- Witness for C7 amended: an empty store, an MQTT data message for
serial `"new77"` (canonicalized to `"NEW77"`), and HTTP requests for the
unknown serial `"NEWSN99"`. -/
theorem ingestion_unknown_serial_witness :
    (upperString "new77" = "NEW77")
    ∧ (findController [] (upperString "new77") = none)
    ∧ (mqtt_on_data_message [] "new77" "aicamera" 5
        = [{ serial_number := upperString "new77",
             controller_type := "aicamera", name := upperString "new77",
             is_online := true, last_seen := some 5,
             timeout_seconds := none }])
    ∧ (mqtt_on_status_message [] "new77" (some true) 5 = [])
    ∧ (update_controller_data [] "NEWSN99" 5 = ([], 404))
    ∧ (update_controller_status [] "NEWSN99" (some true) 5 = ([], 404)) := by
  have h := ingestion_unknown_serial [] "new77" "NEWSN99" "aicamera"
    (some true) (some true) 5 (by decide) (by decide) (by decide)
  exact ⟨by decide, by decide, h.1, h.2.1, h.2.2.1, h.2.2.2⟩

end LXCloud
